import Mathlib

/-!
Shallow embedding of the GPU texture synchronization engine
(gpu/texture/texture.cpp) of the skyline emulator, together with proofs
about its synchronization, copy and layout-transition operations.

Modelling conventions:
- Byte buffers are `List Nat`; machine pointers become the buffers they
  point into, and a write through a pointer is an explicit replacement of
  those buffer contents.
- Vulkan image handles are `Nat`; the recorded command stream of a
  submission is a `List Cmd`.
- A fence cycle is identified by a `Nat`; the texture's weak reference to
  its pending cycle is an `Option Nat` (`none` when empty or expired).
  Each operation that may submit takes the id the scheduler would assign
  to a submission made by that call.
- The tiling codec (copy.h) is external to this core and is passed in as
  an uninterpreted `Codec` record of byte-layout transforms.
- Thrown C++ exceptions become `some e : Option SyncError` paired with the
  texture state at throw time; a call that would block forever on a missing
  backing (WaitOnBacking with no other thread) yields `blockedOnBacking`.
  `mappingOutOfBounds` marks control reaching the unchecked
  `guest->mappings[0]` access on an empty mapping list, which is undefined
  behaviour in the C++, not a raised error.
-/

namespace skyline

/-- Vulkan image layouts used by the texture engine (vk::ImageLayout). -/
inductive ImageLayout where
  | undefined
  | general
  | transferSrcOptimal
  | transferDstOptimal
  | shaderReadOnlyOptimal
  | colorAttachmentOptimal
deriving DecidableEq

/-- Vulkan image tilings (vk::ImageTiling). -/
inductive ImageTiling where
  | optimal
  | linear
  | drmFormatModifier
deriving DecidableEq

/-- Guest texture tile modes (texture::TileMode). -/
inductive TileMode where
  | block
  | pitch
  | linear
deriving DecidableEq

/-- texture::Dimensions (width, height, depth). -/
structure Dimensions where
  width : Nat
  height : Nat
  depth : Nat
deriving DecidableEq

/-- texture::Format: bytes per block plus the vk format id (so that two
formats with equal size can still differ). -/
structure Format where
  bpb : Nat
  vkFormat : Nat
deriving DecidableEq

/-- Format::GetSize(dimensions): the linear byte size of the texture. -/
def Format.GetSize (f : Format) (d : Dimensions) : Nat :=
  d.width * d.height * d.depth * f.bpb

/-- texture::TileConfig: only the mode is dispatched on in texture.cpp;
the remaining tile parameters are consumed by the external codec. -/
structure TileConfig where
  mode : TileMode
deriving DecidableEq

/-- GuestTexture: guest-side descriptor with its physical-memory mappings,
each mapping being the byte buffer it spans. -/
structure GuestTexture where
  dimensions : Dimensions
  format : Format
  tileConfig : TileConfig
  mappings : List (List Nat)
  layerCount : Nat
deriving DecidableEq

/-- Writing through guest->mappings[0].data() replaces the first mapping's
bytes and leaves the others untouched. -/
def GuestTexture.setMapping0 (g : GuestTexture) (m : List Nat) : GuestTexture :=
  { g with mappings := m :: g.mappings.tail }

/-- Texture::BackingType: variant of no backing, an unmapped vk image, or a
CPU-mapped memory::Image carrying its mapped bytes. -/
inductive BackingType where
  | absent
  | image (handle : Nat)
  | mappedImage (handle : Nat) (data : List Nat)
deriving DecidableEq

/-- Texture::GetBacking(): the vk image handle, none when the backing is
absent (the C++ returns a null handle). -/
def BackingType.getBacking : BackingType → Option Nat
  | .absent => none
  | .image h => some h
  | .mappedImage h _ => some h

/-- std::holds_alternative of memory::Image on the backing variant. -/
def BackingType.isMapped : BackingType → Bool
  | .mappedImage _ _ => true
  | _ => false

/-- memory::Image::data(): the CPU-visible bytes of a mapped backing. -/
def BackingType.mappedData : BackingType → Option (List Nat)
  | .mappedImage _ d => some d
  | _ => none

/-- Writing through the mapped pointer replaces the mapped bytes. -/
def BackingType.setMappedData : BackingType → List Nat → BackingType
  | .mappedImage h _, d => .mappedImage h d
  | b, _ => b

/-- Outcomes other than normal return: the thrown exceptions of
texture.cpp, plus the two modelling markers described in the header
comment (`blockedOnBacking`, `mappingOutOfBounds`). -/
inductive SyncError where
  | noGuestHostSync
  | noGuestGuestSync
  | dimensionMismatch
  | multipleMappings (n : Nat)
  | unimplementedTiling
  | undefinedSourceLayout
  | copyDimensionMismatch
  | copyFormatMismatch
  | mappingOutOfBounds
  | blockedOnBacking
deriving DecidableEq

/-- Commands recorded into a vk command buffer by this engine. -/
inductive Cmd where
  | pipelineBarrier (image : Nat) (oldLayout newLayout : ImageLayout)
  | copyBufferToImage (buffer : List Nat) (image : Nat)
  | copyImageToBuffer (image : Nat)
  | copyImage (srcImage dstImage mipLevel layerCount : Nat)
deriving DecidableEq

/-- Recognizer for vkCmdCopyImage commands. -/
def Cmd.isCopyImage : Cmd → Bool
  | .copyImage _ _ _ _ => true
  | _ => false

/-- Recognizer for vkCmdCopyBufferToImage commands. -/
def Cmd.isCopyBufferToImage : Cmd → Bool
  | .copyBufferToImage _ _ => true
  | _ => false

/-- Objects attached to a fence cycle for deferred release. -/
inductive Attached where
  | stagingBuffer (bytes : List Nat)
  | textureSelf
  | sourceTexture
  | bufferCopy (staging : Option (List Nat))
deriving DecidableEq

/-- One scheduler submission: the cycle id the scheduler returned, the
recorded command stream, and the objects attached to that cycle. -/
structure Submission where
  cycleId : Nat
  cmds : List Cmd
  attached : List Attached
deriving DecidableEq

/-- Observable effects of one call: dedicated submissions through the
scheduler, commands recorded into a caller-supplied command buffer,
attachments made to an existing (caller-supplied) cycle, and the number of
blocking fence waits performed. -/
structure Effects where
  submissions : List Submission := []
  recorded : List Cmd := []
  attachedTo : List (Nat × Attached) := []
  fenceWaits : Nat := 0
deriving DecidableEq

/-- Effects of a call that did nothing observable. -/
def noEffects : Effects := {}

/-- The external tiling codec (copy.h): byte-layout transforms between
guest tiled buffers and linear buffers, given the guest descriptor, the
input bytes and the previous contents of the output buffer. -/
structure Codec where
  blockToLinear : GuestTexture → List Nat → List Nat → List Nat
  pitchToLinear : GuestTexture → List Nat → List Nat → List Nat
  linearToBlock : GuestTexture → List Nat → List Nat → List Nat
  linearToPitch : GuestTexture → List Nat → List Nat → List Nat

/-- Texture: the mutable state of one gpu::Texture. -/
structure Texture where
  dimensions : Dimensions
  format : Format
  layout : ImageLayout
  tiling : ImageTiling
  backing : BackingType
  guest : Option GuestTexture
  cycle : Option Nat
  mipLevels : Nat
  layerCount : Nat
deriving DecidableEq

/-- Texture::GetBacking(). -/
def Texture.GetBacking (t : Texture) : Option Nat :=
  t.backing.getBacking

/-- Texture::WaitOnFence(): wait on the tracked cycle if it is still live,
then clear the reference; returns the state and whether a wait occurred. -/
def Texture.WaitOnFence (t : Texture) : Texture × Nat :=
  match t.cycle with
  | some _ => ({ t with cycle := none }, 1)
  | none => (t, 0)

/-- Texture::CopyToGuest(u8 *hostBuffer): dispatch on the guest tile mode;
`guestOutput` is guest->mappings[0], `hostBuffer` the bytes passed in.
Returns the new contents of (hostBuffer, guestOutput): the C++ writes
through those two pointers. Note the Linear branch is
memcpy(hostBuffer, guestOutput, size) in the source, so it overwrites the
host buffer with the guest bytes and leaves the guest bytes untouched. -/
def Texture.CopyToGuest (codec : Codec) (t : Texture) (g : GuestTexture)
    (guestOutput hostBuffer : List Nat) : List Nat × List Nat :=
  let size := t.format.GetSize t.dimensions
  match g.tileConfig.mode with
  | TileMode.block => (hostBuffer, codec.linearToBlock g hostBuffer guestOutput)
  | TileMode.pitch => (hostBuffer, codec.linearToPitch g hostBuffer guestOutput)
  | TileMode.linear => (guestOutput.take size ++ hostBuffer.drop size, guestOutput)

/-- Texture::TextureBufferCopy: deferred write-back guard; owns an optional
staging buffer (and, in the C++, a shared reference to the texture). -/
structure TextureBufferCopy where
  stagingBuffer : Option (List Nat)
deriving DecidableEq

/-- Destructor of TextureBufferCopy, run when the fence cycle releases its
attachments: texture->CopyToGuest(stagingBuffer ? stagingBuffer->data()
: std::get of memory::Image of texture->backing .data()). Returns none when
the C++ would hit unchecked guest access or a bad variant access. -/
def TextureBufferCopy.run (codec : Codec) (t : Texture) (c : TextureBufferCopy) :
    Option Texture :=
  match t.guest with
  | none => none
  | some g =>
    match g.mappings.head? with
    | none => none
    | some m =>
      match c.stagingBuffer with
      | some b =>
        let r := Texture.CopyToGuest codec t g m b
        some { t with guest := some (g.setMapping0 r.2) }
      | none =>
        match t.backing.mappedData with
        | none => none
        | some d =>
          let r := Texture.CopyToGuest codec t g m d
          some { t with backing := t.backing.setMappedData r.1,
                        guest := some (g.setMapping0 r.2) }

/-- Conversion step of SynchronizeHostImpl (texture.cpp lines 42-47):
dispatch on the guest tile mode, writing into `bufferData`; the Linear
branch is memcpy(bufferData, pointer, size). -/
def syncHostConvert (codec : Codec) (g : GuestTexture)
    (pointer bufferData : List Nat) (size : Nat) : List Nat :=
  match g.tileConfig.mode with
  | TileMode.block => codec.blockToLinear g pointer bufferData
  | TileMode.pitch => codec.pitchToLinear g pointer bufferData
  | TileMode.linear => pointer.take size ++ bufferData.drop size

/-- Texture::CopyFromStagingBuffer: the commands recorded for a
buffer-to-image copy, wrapped in layout barriers; returns the command list
and the value of `layout` after recording (the pre-copy barrier mutates an
undefined layout to transfer-destination-optimal). -/
def Texture.CopyFromStagingBuffer (t : Texture) (buf : List Nat) :
    List Cmd × ImageLayout :=
  let img := t.GetBacking.getD 0
  if t.layout = ImageLayout.transferDstOptimal then
    ([Cmd.copyBufferToImage buf img], t.layout)
  else
    let layout1 := if t.layout = ImageLayout.undefined then ImageLayout.transferDstOptimal else t.layout
    let post :=
      if layout1 ≠ ImageLayout.transferDstOptimal then
        [Cmd.pipelineBarrier img ImageLayout.transferDstOptimal layout1]
      else []
    ([Cmd.pipelineBarrier img t.layout ImageLayout.transferDstOptimal,
      Cmd.copyBufferToImage buf img] ++ post, layout1)

/-- Texture::CopyIntoStagingBuffer: the commands recorded for an
image-to-buffer copy, wrapped in layout barriers; returns the command list
and the value of `layout` after recording (the pre-copy barrier mutates an
undefined layout to transfer-source-optimal). -/
def Texture.CopyIntoStagingBuffer (t : Texture) : List Cmd × ImageLayout :=
  let img := t.GetBacking.getD 0
  if t.layout = ImageLayout.transferSrcOptimal then
    ([Cmd.copyImageToBuffer img], t.layout)
  else
    let layout1 := if t.layout = ImageLayout.undefined then ImageLayout.transferSrcOptimal else t.layout
    let post :=
      if layout1 ≠ ImageLayout.transferSrcOptimal then
        [Cmd.pipelineBarrier img ImageLayout.transferSrcOptimal layout1]
      else []
    ([Cmd.pipelineBarrier img t.layout ImageLayout.transferSrcOptimal,
      Cmd.copyImageToBuffer img] ++ post, layout1)

/-- The three precondition checks at the top of
Texture::SynchronizeHostImpl (texture.cpp lines 12-17). -/
def Texture.hostSyncContractError (t : Texture) : Option SyncError :=
  match t.guest with
  | none => some SyncError.noGuestHostSync
  | some g =>
    if g.dimensions ≠ t.dimensions then some SyncError.dimensionMismatch
    else if g.mappings.length > 1 then some (SyncError.multipleMappings g.mappings.length)
    else none

/-- Texture::SynchronizeHostImpl(pCycle): on success returns the texture
state (backing bytes updated on the direct-map path, pending cycle cleared
by any fence wait), the staging buffer contents when one was used, and the
number of fence waits performed. -/
def Texture.SynchronizeHostImpl (codec : Codec) (t : Texture) (pCycle : Option Nat) :
    Except SyncError (Texture × Option (List Nat) × Nat) :=
  match t.hostSyncContractError with
  | some e => Except.error e
  | none =>
    match t.guest with
    | none => Except.error SyncError.noGuestHostSync
    | some g =>
      match g.mappings.head? with
      | none => Except.error SyncError.mappingOutOfBounds
      | some pointer =>
        let size := t.format.GetSize t.dimensions
        match t.GetBacking with
        | none => Except.error SyncError.blockedOnBacking
        | some _ =>
          if t.tiling = ImageTiling.optimal ∨ t.backing.isMapped = false then
            let buf := syncHostConvert codec g pointer (List.replicate size 0) size
            let tw := if t.cycle ≠ pCycle then t.WaitOnFence else (t, 0)
            Except.ok (tw.1, some buf, tw.2)
          else if t.tiling = ImageTiling.linear then
            let tw := if t.cycle ≠ pCycle then t.WaitOnFence else (t, 0)
            let bufferData := tw.1.backing.mappedData.getD []
            let newData := syncHostConvert codec g pointer bufferData size
            Except.ok ({ tw.1 with backing := tw.1.backing.setMappedData newData }, none, tw.2)
          else Except.error SyncError.unimplementedTiling

/-- Texture::SynchronizeHost(): impl with a null pCycle; when a staging
buffer was used, submit the CopyFromStagingBuffer commands as one unit,
attach the staging buffer and the texture itself to the returned cycle and
record that cycle as pending. -/
def Texture.SynchronizeHost (codec : Codec) (t : Texture) (fresh : Nat) :
    Texture × Effects × Option SyncError :=
  match t.SynchronizeHostImpl codec none with
  | Except.error e => (t, noEffects, some e)
  | Except.ok (t1, some buf, w) =>
    let cb := Texture.CopyFromStagingBuffer t1 buf
    ({ t1 with layout := cb.2, cycle := some fresh },
     { submissions := [⟨fresh, cb.1, [Attached.stagingBuffer buf, Attached.textureSelf]⟩],
       fenceWaits := w }, none)
  | Except.ok (t1, none, w) =>
    (t1, { fenceWaits := w }, none)

/-- Texture::SynchronizeHostWithBuffer(commandBuffer, pCycle): like
SynchronizeHost but records into the caller's command buffer and attaches
to the caller's cycle instead of submitting. -/
def Texture.SynchronizeHostWithBuffer (codec : Codec) (t : Texture) (pCycle : Nat) :
    Texture × Effects × Option SyncError :=
  match t.SynchronizeHostImpl codec (some pCycle) with
  | Except.error e => (t, noEffects, some e)
  | Except.ok (t1, some buf, w) =>
    let cb := Texture.CopyFromStagingBuffer t1 buf
    ({ t1 with layout := cb.2, cycle := some pCycle },
     { recorded := cb.1,
       attachedTo := [(pCycle, Attached.stagingBuffer buf), (pCycle, Attached.textureSelf)],
       fenceWaits := w }, none)
  | Except.ok (t1, none, w) =>
    (t1, { fenceWaits := w }, none)

/-- Texture::SynchronizeGuest(): guest checks (the undefined-layout no-op
return sits between the guest-presence and mapping-count checks), then
WaitOnBacking and WaitOnFence, then either the staging-buffer path (submit
CopyIntoStagingBuffer, attach a TextureBufferCopy guard holding the staging
buffer) or the direct-map path (CopyToGuest straight from the mapped
backing bytes). -/
def Texture.SynchronizeGuest (codec : Codec) (t : Texture) (fresh : Nat) :
    Texture × Effects × Option SyncError :=
  match t.guest with
  | none => (t, noEffects, some SyncError.noGuestGuestSync)
  | some g =>
    if t.layout = ImageLayout.undefined then
      (t, noEffects, none)
    else if g.mappings.length > 1 then
      (t, noEffects, some (SyncError.multipleMappings g.mappings.length))
    else
      match t.GetBacking with
      | none => (t, noEffects, some SyncError.blockedOnBacking)
      | some _ =>
        let tw := t.WaitOnFence
        if t.tiling = ImageTiling.optimal ∨ t.backing.isMapped = false then
          let size := t.format.GetSize t.dimensions
          let staging := List.replicate size 0
          let cb := Texture.CopyIntoStagingBuffer tw.1
          ({ tw.1 with layout := cb.2, cycle := some fresh },
           { submissions := [⟨fresh, cb.1, [Attached.bufferCopy (some staging)]⟩],
             fenceWaits := tw.2 }, none)
        else if t.tiling = ImageTiling.linear then
          match g.mappings.head? with
          | none => (tw.1, { fenceWaits := tw.2 }, some SyncError.mappingOutOfBounds)
          | some m =>
            let d := tw.1.backing.mappedData.getD []
            let r := Texture.CopyToGuest codec tw.1 g m d
            ({ tw.1 with backing := tw.1.backing.setMappedData r.1,
                         guest := some (g.setMapping0 r.2) },
             { fenceWaits := tw.2 }, none)
        else (tw.1, { fenceWaits := tw.2 }, some SyncError.unimplementedTiling)

/-- Texture::SynchronizeGuestWithBuffer(commandBuffer, pCycle): like
SynchronizeGuest but records into the caller's command buffer and attaches
guards to the caller's cycle; on the direct-map path it both performs
CopyToGuest immediately and attaches a TextureBufferCopy guard with no
staging buffer. -/
def Texture.SynchronizeGuestWithBuffer (codec : Codec) (t : Texture) (pCycle : Nat) :
    Texture × Effects × Option SyncError :=
  match t.guest with
  | none => (t, noEffects, some SyncError.noGuestGuestSync)
  | some g =>
    if t.layout = ImageLayout.undefined then
      (t, noEffects, none)
    else if g.mappings.length > 1 then
      (t, noEffects, some (SyncError.multipleMappings g.mappings.length))
    else
      match t.GetBacking with
      | none => (t, noEffects, some SyncError.blockedOnBacking)
      | some _ =>
        let tw := if t.cycle ≠ some pCycle then t.WaitOnFence else (t, 0)
        if t.tiling = ImageTiling.optimal ∨ t.backing.isMapped = false then
          let size := t.format.GetSize t.dimensions
          let staging := List.replicate size 0
          let cb := Texture.CopyIntoStagingBuffer tw.1
          ({ tw.1 with layout := cb.2, cycle := some pCycle },
           { recorded := cb.1,
             attachedTo := [(pCycle, Attached.bufferCopy (some staging))],
             fenceWaits := tw.2 }, none)
        else if t.tiling = ImageTiling.linear then
          match g.mappings.head? with
          | none => (tw.1, { fenceWaits := tw.2 }, some SyncError.mappingOutOfBounds)
          | some m =>
            let d := tw.1.backing.mappedData.getD []
            let r := Texture.CopyToGuest codec tw.1 g m d
            ({ tw.1 with backing := tw.1.backing.setMappedData r.1,
                         guest := some (g.setMapping0 r.2), cycle := some pCycle },
             { attachedTo := [(pCycle, Attached.bufferCopy none)],
               fenceWaits := tw.2 }, none)
        else (tw.1, { fenceWaits := tw.2 }, some SyncError.unimplementedTiling)

/-- Texture::TransitionLayout(pLayout): WaitOnBacking, WaitOnFence, then
submit a layout-only barrier and update the cached layout only when the
current layout differs. -/
def Texture.TransitionLayout (t : Texture) (fresh : Nat) (pLayout : ImageLayout) :
    Texture × Effects × Option SyncError :=
  match t.GetBacking with
  | none => (t, noEffects, some SyncError.blockedOnBacking)
  | some img =>
    let tw := t.WaitOnFence
    if tw.1.layout ≠ pLayout then
      ({ tw.1 with layout := pLayout, cycle := some fresh },
       { submissions := [⟨fresh, [Cmd.pipelineBarrier img tw.1.layout pLayout], []⟩],
         fenceWaits := tw.2 }, none)
    else
      (tw.1, { fenceWaits := tw.2 }, none)

/-- VK_REMAINING_MIP_LEVELS sentinel. -/
def VK_REMAINING_MIP_LEVELS : Nat := 4294967295

/-- VK_REMAINING_ARRAY_LAYERS sentinel. -/
def VK_REMAINING_ARRAY_LAYERS : Nat := 4294967295

/-- vk::ImageSubresourceRange (aspect mask omitted, it is threaded through
unchanged). -/
structure SubresourceRange where
  baseMipLevel : Nat
  levelCount : Nat
  baseArrayLayer : Nat
  layerCount : Nat
deriving DecidableEq

/-- The command stream recorded by the submit lambda of
Texture::CopyFrom (texture.cpp lines 408-476), for destination `t` and
source `s`, together with the destination's `layout` field after recording
(mutated when it started undefined). The mip loop runs the mip level from
baseMipLevel while it is less than (levelCount, or mipLevels minus
baseMipLevel under the sentinel); the two restore barriers both test the
destination's layout field. -/
def Texture.copyFromCmds (t s : Texture) (r : SubresourceRange) :
    List Cmd × ImageLayout :=
  let sImg := s.GetBacking.getD 0
  let dImg := t.GetBacking.getD 0
  let pre1 :=
    if s.layout ≠ ImageLayout.transferSrcOptimal then
      [Cmd.pipelineBarrier sImg s.layout ImageLayout.transferSrcOptimal]
    else []
  let pre2 :=
    if t.layout ≠ ImageLayout.transferDstOptimal then
      [Cmd.pipelineBarrier dImg t.layout ImageLayout.transferDstOptimal]
    else []
  let layout1 := if t.layout = ImageLayout.undefined then ImageLayout.transferDstOptimal else t.layout
  let layers :=
    if r.layerCount = VK_REMAINING_ARRAY_LAYERS then t.layerCount - r.baseArrayLayer
    else r.layerCount
  let bound :=
    if r.levelCount = VK_REMAINING_MIP_LEVELS then t.mipLevels - r.baseMipLevel
    else r.levelCount
  let copies := (List.range' r.baseMipLevel (bound - r.baseMipLevel)).map
    fun mip => Cmd.copyImage sImg dImg mip layers
  let post1 :=
    if layout1 ≠ ImageLayout.transferDstOptimal then
      [Cmd.pipelineBarrier dImg ImageLayout.transferDstOptimal layout1]
    else []
  let post2 :=
    if layout1 ≠ ImageLayout.transferSrcOptimal then
      [Cmd.pipelineBarrier sImg ImageLayout.transferSrcOptimal s.layout]
    else []
  (pre1 ++ pre2 ++ copies ++ post1 ++ post2, layout1)

/-- Texture::CopyFrom(source, subresource): wait on both textures' backing
and fences, check the preconditions, then submit the copy as one unit,
attach source and self to the returned cycle and record it as the
destination's pending cycle. Result is (destination, source, effects,
error). -/
def Texture.CopyFrom (t : Texture) (s : Texture) (r : SubresourceRange) (fresh : Nat) :
    Texture × Texture × Effects × Option SyncError :=
  match t.GetBacking with
  | none => (t, s, noEffects, some SyncError.blockedOnBacking)
  | some _ =>
    let tw := t.WaitOnFence
    match s.GetBacking with
    | none => (tw.1, s, { fenceWaits := tw.2 }, some SyncError.blockedOnBacking)
    | some _ =>
      let sw := s.WaitOnFence
      if s.layout = ImageLayout.undefined then
        (tw.1, sw.1, { fenceWaits := tw.2 + sw.2 }, some SyncError.undefinedSourceLayout)
      else if s.dimensions ≠ t.dimensions then
        (tw.1, sw.1, { fenceWaits := tw.2 + sw.2 }, some SyncError.copyDimensionMismatch)
      else if s.format ≠ t.format then
        (tw.1, sw.1, { fenceWaits := tw.2 + sw.2 }, some SyncError.copyFormatMismatch)
      else
        let cb := Texture.copyFromCmds tw.1 sw.1 r
        ({ tw.1 with layout := cb.2, cycle := some fresh }, sw.1,
         { submissions := [⟨fresh, cb.1, [Attached.sourceTexture, Attached.textureSelf]⟩],
           fenceWaits := tw.2 + sw.2 }, none)

/-- A concrete codec whose transforms pass the input bytes through, used to
evaluate the engine on concrete states. -/
def trivialCodec : Codec :=
  ⟨fun _ p _ => p, fun _ p _ => p, fun _ h _ => h, fun _ h _ => h⟩

/-- Linear-tiled 2-byte guest texture whose single mapping holds bytes 3, 4. -/
def guestC1 : GuestTexture :=
  ⟨⟨2, 1, 1⟩, ⟨1, 0⟩, ⟨TileMode.linear⟩, [[3, 4]], 1⟩

/-- Linear, CPU-mapped texture over guestC1 whose host image bytes are 1, 2. -/
def texC1 : Texture :=
  ⟨⟨2, 1, 1⟩, ⟨1, 0⟩, ImageLayout.general, ImageTiling.linear,
   BackingType.mappedImage 0 [1, 2], some guestC1, none, 1, 1⟩

/-- Destination texture for the CopyFrom evaluation: 4 mip levels, general
layout, image handle 2. -/
def texC2d : Texture :=
  ⟨⟨4, 4, 1⟩, ⟨4, 0⟩, ImageLayout.general, ImageTiling.optimal,
   BackingType.image 2, none, none, 4, 1⟩

/-- Source texture matching texC2d, image handle 3. -/
def texC2s : Texture :=
  ⟨⟨4, 4, 1⟩, ⟨4, 0⟩, ImageLayout.general, ImageTiling.optimal,
   BackingType.image 3, none, none, 4, 1⟩

/-- Subresource range asking for 2 mip levels starting at base level 1. -/
def rngC2 : SubresourceRange := ⟨1, 2, 0, 1⟩

/-- Destination already in transfer-source-optimal layout, used to expose
the source-restore condition testing the destination's layout. -/
def texC2d2 : Texture :=
  ⟨⟨4, 4, 1⟩, ⟨4, 0⟩, ImageLayout.transferSrcOptimal, ImageTiling.optimal,
   BackingType.image 2, none, none, 4, 1⟩

/-- Source in general layout matching texC2d2. -/
def texC2s2 : Texture :=
  ⟨⟨4, 4, 1⟩, ⟨4, 0⟩, ImageLayout.general, ImageTiling.optimal,
   BackingType.image 3, none, none, 4, 1⟩

/-- Subresource range for mip level 0 only. -/
def rng01 : SubresourceRange := ⟨0, 1, 0, 1⟩

/-- Guest descriptor whose dimensions (1 wide) differ from its texture's. -/
def guestC3 : GuestTexture :=
  ⟨⟨1, 1, 1⟩, ⟨1, 0⟩, ⟨TileMode.linear⟩, [[7, 8]], 1⟩

/-- Texture 2 wide over the 1-wide guestC3: a guest/host dimension
mismatch, defined layout, single mapping. -/
def texC3 : Texture :=
  ⟨⟨2, 1, 1⟩, ⟨1, 0⟩, ImageLayout.general, ImageTiling.linear,
   BackingType.mappedImage 0 [1, 2], some guestC3, none, 1, 1⟩

/-- Guest descriptor with zero mappings. -/
def guestC4 : GuestTexture :=
  ⟨⟨1, 1, 1⟩, ⟨1, 0⟩, ⟨TileMode.linear⟩, [], 1⟩

/-- Texture over the zero-mapping guestC4, dimensions matching. -/
def texC4 : Texture :=
  ⟨⟨1, 1, 1⟩, ⟨1, 0⟩, ImageLayout.general, ImageTiling.linear,
   BackingType.mappedImage 0 [9], some guestC4, none, 1, 1⟩

/-- Destination texture with a live pending fence cycle (id 7). -/
def texC5d : Texture :=
  ⟨⟨1, 1, 1⟩, ⟨1, 0⟩, ImageLayout.general, ImageTiling.optimal,
   BackingType.image 4, none, some 7, 1, 1⟩

/-- Undefined-layout source texture with a live pending fence cycle (id 9). -/
def texC5s : Texture :=
  ⟨⟨1, 1, 1⟩, ⟨1, 0⟩, ImageLayout.undefined, ImageTiling.optimal,
   BackingType.image 5, none, some 9, 1, 1⟩

/-- Texture already in general layout with backing present. -/
def texC6 : Texture :=
  ⟨⟨1, 1, 1⟩, ⟨1, 0⟩, ImageLayout.general, ImageTiling.optimal,
   BackingType.image 1, none, none, 1, 1⟩

/-- Guest descriptor with two mappings. -/
def guestC9 : GuestTexture :=
  ⟨⟨1, 1, 1⟩, ⟨1, 0⟩, ⟨TileMode.linear⟩, [[1], [2]], 1⟩

/-- Undefined-layout texture over the two-mapping guestC9. -/
def texC9 : Texture :=
  ⟨⟨1, 1, 1⟩, ⟨1, 0⟩, ImageLayout.undefined, ImageTiling.linear,
   BackingType.mappedImage 0 [0], some guestC9, none, 1, 1⟩

/-- Undefined-layout texture with backing present. -/
def texC10u : Texture :=
  ⟨⟨1, 1, 1⟩, ⟨1, 0⟩, ImageLayout.undefined, ImageTiling.optimal,
   BackingType.image 6, none, none, 1, 1⟩

/-- Guest descriptor with two mappings for the C3 witness. -/
def guestC3w : GuestTexture :=
  ⟨⟨1, 1, 1⟩, ⟨1, 0⟩, ⟨TileMode.linear⟩, [[1], [2]], 1⟩

/-- Defined-layout texture over the two-mapping guestC3w. -/
def texC3w : Texture :=
  ⟨⟨1, 1, 1⟩, ⟨1, 0⟩, ImageLayout.general, ImageTiling.linear,
   BackingType.mappedImage 0 [0], some guestC3w, none, 1, 1⟩

/-- Source texture whose format id differs from texC6's. -/
def texC5w : Texture :=
  ⟨⟨1, 1, 1⟩, ⟨1, 1⟩, ImageLayout.general, ImageTiling.optimal,
   BackingType.image 6, none, none, 1, 1⟩

/-- Block-tiled guest descriptor with a single one-byte mapping. -/
def guestC7 : GuestTexture :=
  ⟨⟨1, 1, 1⟩, ⟨1, 0⟩, ⟨TileMode.block⟩, [[5]], 1⟩

/-- Optimally tiled texture over guestC7 (staging-buffer path). -/
def texC7o : Texture :=
  ⟨⟨1, 1, 1⟩, ⟨1, 0⟩, ImageLayout.general, ImageTiling.optimal,
   BackingType.image 2, some guestC7, none, 1, 1⟩

/-- Linear-tiled guest descriptor with a single one-byte mapping. -/
def guestC7l : GuestTexture :=
  ⟨⟨1, 1, 1⟩, ⟨1, 0⟩, ⟨TileMode.linear⟩, [[5]], 1⟩

/-- Linear, CPU-mapped texture over guestC7l (direct-map path). -/
def texC7l : Texture :=
  ⟨⟨1, 1, 1⟩, ⟨1, 0⟩, ImageLayout.general, ImageTiling.linear,
   BackingType.mappedImage 3 [0], some guestC7l, none, 1, 1⟩

/-- Linear-tiled guest descriptor holding byte 5 in its single mapping. -/
def guestC8 : GuestTexture :=
  ⟨⟨1, 1, 1⟩, ⟨1, 0⟩, ⟨TileMode.linear⟩, [[5]], 1⟩

/-- Linear, CPU-mapped texture over guestC8 with host byte 6. -/
def texC8 : Texture :=
  ⟨⟨1, 1, 1⟩, ⟨1, 0⟩, ImageLayout.general, ImageTiling.linear,
   BackingType.mappedImage 4 [6], some guestC8, none, 1, 1⟩

/-- WaitOnFence leaves every field but the pending-cycle reference alone. -/
theorem waitOnFence_state (t : Texture) :
    (Texture.WaitOnFence t).1 = { t with cycle := none } := by
  obtain ⟨d, f, l, ti, b, g, c, m, la⟩ := t
  cases c <;> rfl

/-- C1: on the linear direct-map path, SynchronizeGuest() does not write
host content back to guest memory. The call returns without error and
without any GPU submission, but the guest mapping still holds its original
bytes 3,4 (it never becomes the host's 1,2) while the host image bytes have
been overwritten with the guest bytes: the Linear branch of CopyToGuest is
memcpy(hostBuffer, guestOutput, size), with destination and source swapped
relative to the function's stated purpose and to its Block/Pitch branches. -/
theorem c1_linear_sync_guest_copies_wrong_direction :
    (Texture.SynchronizeGuest trivialCodec texC1 0).2.2 = none ∧
    (Texture.SynchronizeGuest trivialCodec texC1 0).2.1.submissions = [] ∧
    (Texture.SynchronizeGuest trivialCodec texC1 0).1.guest = some guestC1 ∧
    (Texture.SynchronizeGuest trivialCodec texC1 0).1.guest ≠
      some { guestC1 with mappings := [[1, 2]] } ∧
    (Texture.SynchronizeGuest trivialCodec texC1 0).1.backing =
      BackingType.mappedImage 0 [3, 4] := by
  decide

/-- C2: the recorded CopyFrom command sequence, evaluated at
baseMipLevel 1, levelCount 2 on 4-mip textures, contains exactly one
image-copy command (mip level 1 only) instead of the two the claim states,
because the loop treats levelCount as an end index for a counter that
starts at baseMipLevel; and at a second input whose destination already
sits in transfer-source-optimal layout, the source image (original layout
general) gets no restore barrier at all, because the restore condition
tests the destination's layout field. -/
theorem c2_copyFrom_recorded_sequence_diverges :
    ((Texture.copyFromCmds texC2d texC2s rngC2).1.filter Cmd.isCopyImage).length = 1 ∧
    (Texture.copyFromCmds texC2d texC2s rngC2).1 =
      [Cmd.pipelineBarrier 3 ImageLayout.general ImageLayout.transferSrcOptimal,
       Cmd.pipelineBarrier 2 ImageLayout.general ImageLayout.transferDstOptimal,
       Cmd.copyImage 3 2 1 1,
       Cmd.pipelineBarrier 2 ImageLayout.transferDstOptimal ImageLayout.general,
       Cmd.pipelineBarrier 3 ImageLayout.transferSrcOptimal ImageLayout.general] ∧
    Cmd.pipelineBarrier 3 ImageLayout.transferSrcOptimal ImageLayout.general ∉
      (Texture.copyFromCmds texC2d2 texC2s2 rng01).1 := by
  refine ⟨rfl, rfl, ?_⟩
  decide

/-- C3 counterexample: a texture whose guest dimensions differ from its
host dimensions, with a defined layout and a single mapping, passes
SynchronizeGuest() and SynchronizeGuestWithBuffer() without any error:
neither function performs the dimension check that SynchronizeHost()
performs. -/
theorem c3_counterexample :
    guestC3.dimensions ≠ texC3.dimensions ∧
    (Texture.SynchronizeGuest trivialCodec texC3 0).2.2 = none ∧
    (Texture.SynchronizeGuestWithBuffer trivialCodec texC3 5).2.2 = none := by
  decide

/-- C4 counterexample: a guest descriptor with zero mappings passes all
three precondition checks of SynchronizeHostImpl (its mapping-count check
is strictly-greater-than-one), so the call does not fail with one of the
contract-violation errors; execution instead reaches the unchecked
guest->mappings[0] access, which is undefined behaviour in the C++. -/
theorem c4_counterexample :
    (texC4.guest.map fun g => g.mappings.length) = some 0 ∧
    Texture.hostSyncContractError texC4 = none ∧
    (Texture.SynchronizeHost trivialCodec texC4 0).2.2 =
      some SyncError.mappingOutOfBounds := by
  decide

/-- C5 counterexample: CopyFrom with an undefined-layout source fails
before recording any command, but both textures' pending fence cycles have
already been waited on and cleared by the time the check runs: the
destination's tracked cycle 7 and the source's tracked cycle 9 are gone in
the returned states. -/
theorem c5_counterexample :
    texC5d.cycle = some 7 ∧ texC5s.cycle = some 9 ∧
    (Texture.CopyFrom texC5d texC5s rng01 0).2.2.2 =
      some SyncError.undefinedSourceLayout ∧
    (Texture.CopyFrom texC5d texC5s rng01 0).2.2.1.submissions = [] ∧
    (Texture.CopyFrom texC5d texC5s rng01 0).1.cycle = none ∧
    (Texture.CopyFrom texC5d texC5s rng01 0).2.1.cycle = none := by
  decide

/-- C6 counterexample: a texture already in layout L (general) with backing
present: calling TransitionLayout(L) twice in a row submits zero GPU
commands in total, not exactly one. -/
theorem c6_counterexample :
    (Texture.TransitionLayout texC6 0 ImageLayout.general).2.1.submissions.length +
      (Texture.TransitionLayout
        (Texture.TransitionLayout texC6 0 ImageLayout.general).1 1
        ImageLayout.general).2.1.submissions.length = 0 := by
  decide

/-- C9: in SynchronizeGuest() and SynchronizeGuestWithBuffer() the
undefined-layout no-op return precedes the mapping-count check: a texture
with a present guest, undefined layout and more than one mapping returns
silently with no error, no effects and no state change. -/
theorem c9_noop_check_precedes_mapping_check
    (codec : Codec) (t : Texture) (g : GuestTexture) (fresh pCycle : Nat)
    (hg : t.guest = some g) (hl : t.layout = ImageLayout.undefined)
    (hm : g.mappings.length > 1) :
    Texture.SynchronizeGuest codec t fresh = (t, noEffects, none) ∧
    Texture.SynchronizeGuestWithBuffer codec t pCycle = (t, noEffects, none) := by
  unfold Texture.SynchronizeGuest Texture.SynchronizeGuestWithBuffer
  rw [hg]
  simp [hl]

/-- C9 witness: the silent no-op on a concrete two-mapping,
undefined-layout texture. -/
theorem c9_noop_check_precedes_mapping_check_witness :
    Texture.SynchronizeGuest trivialCodec texC9 0 = (texC9, noEffects, none) ∧
    Texture.SynchronizeGuestWithBuffer trivialCodec texC9 3 = (texC9, noEffects, none) :=
  c9_noop_check_precedes_mapping_check trivialCodec texC9 guestC9 0 3 rfl rfl (by decide)

/-- C10: when the staging-path pre-copy barrier of CopyFromStagingBuffer
(the SynchronizeHost direction) or CopyIntoStagingBuffer (the
SynchronizeGuest direction) sees an undefined layout, the layout field
comes out as transfer-destination-optimal respectively
transfer-source-optimal and the recorded commands end with the copy (the
post-copy restore barrier is skipped); for any other starting layout the
recording leaves the layout field unchanged. -/
theorem c10_undefined_layout_mutation (t : Texture) (buf : List Nat) :
    (t.layout = ImageLayout.undefined →
       Texture.CopyFromStagingBuffer t buf =
         ([Cmd.pipelineBarrier (t.GetBacking.getD 0) ImageLayout.undefined
             ImageLayout.transferDstOptimal,
           Cmd.copyBufferToImage buf (t.GetBacking.getD 0)],
          ImageLayout.transferDstOptimal) ∧
       Texture.CopyIntoStagingBuffer t =
         ([Cmd.pipelineBarrier (t.GetBacking.getD 0) ImageLayout.undefined
             ImageLayout.transferSrcOptimal,
           Cmd.copyImageToBuffer (t.GetBacking.getD 0)],
          ImageLayout.transferSrcOptimal)) ∧
    (t.layout ≠ ImageLayout.undefined →
       (Texture.CopyFromStagingBuffer t buf).2 = t.layout ∧
       (Texture.CopyIntoStagingBuffer t).2 = t.layout) := by
  constructor
  · intro h
    unfold Texture.CopyFromStagingBuffer Texture.CopyIntoStagingBuffer
    rw [h]
    simp
  · intro h
    unfold Texture.CopyFromStagingBuffer Texture.CopyIntoStagingBuffer
    by_cases h1 : t.layout = ImageLayout.transferDstOptimal <;>
      by_cases h2 : t.layout = ImageLayout.transferSrcOptimal <;>
      simp [h, h1, h2]

/-- C10 witness: the layout mutation on a concrete undefined-layout
texture, and layout preservation on a concrete general-layout texture. -/
theorem c10_undefined_layout_mutation_witness :
    (Texture.CopyFromStagingBuffer texC10u [0]).2 = ImageLayout.transferDstOptimal ∧
    (Texture.CopyIntoStagingBuffer texC6).2 = ImageLayout.general := by
  have h1 := (c10_undefined_layout_mutation texC10u [0]).1 rfl
  have h2 := (c10_undefined_layout_mutation texC6 [0]).2 (by decide)
  exact ⟨by rw [h1.1], h2.2⟩

/-- C3 (amended): SynchronizeGuest() and SynchronizeGuestWithBuffer()
enforce the guest-presence and single-mapping preconditions of
SynchronizeHost() but perform no dimension comparison; an absent guest
descriptor, or (when the layout is defined) more than one mapping, fails
with a fatal error that mutates no Texture state and produces no effect. -/
theorem c3_guest_sync_preconditions
    (codec : Codec) (t : Texture) (fresh pCycle : Nat) :
    (t.guest = none →
       Texture.SynchronizeGuest codec t fresh =
         (t, noEffects, some SyncError.noGuestGuestSync) ∧
       Texture.SynchronizeGuestWithBuffer codec t pCycle =
         (t, noEffects, some SyncError.noGuestGuestSync)) ∧
    (∀ g, t.guest = some g → t.layout ≠ ImageLayout.undefined →
       g.mappings.length > 1 →
       Texture.SynchronizeGuest codec t fresh =
         (t, noEffects, some (SyncError.multipleMappings g.mappings.length)) ∧
       Texture.SynchronizeGuestWithBuffer codec t pCycle =
         (t, noEffects, some (SyncError.multipleMappings g.mappings.length))) := by
  constructor
  · intro h
    unfold Texture.SynchronizeGuest Texture.SynchronizeGuestWithBuffer
    rw [h]
    exact ⟨rfl, rfl⟩
  · intro g hg hl hm
    unfold Texture.SynchronizeGuest Texture.SynchronizeGuestWithBuffer
    rw [hg]
    simp [hl, hm]

/-- C3 witness: the multi-mapping failure on a concrete two-mapping
texture whose layout is defined. -/
theorem c3_guest_sync_preconditions_witness :
    Texture.SynchronizeGuest trivialCodec texC3w 0 =
      (texC3w, noEffects, some (SyncError.multipleMappings 2)) :=
  ((c3_guest_sync_preconditions trivialCodec texC3w 0 0).2 guestC3w rfl
    (by decide) (by decide)).1

/-- C4 (amended): SynchronizeHost() and SynchronizeHostWithBuffer()
require a present guest descriptor, matching dimensions and at most one
mapping; violating one of those three checks fails with a fatal error that
mutates no state and produces no effect. A guest descriptor with zero
mappings is not rejected: it passes the checks and execution reaches the
unchecked guest->mappings[0] access (undefined behaviour in the C++)
while the texture is still unmutated. -/
theorem c4_host_sync_preconditions
    (codec : Codec) (t : Texture) (fresh pCycle : Nat) :
    (t.guest = none →
       Texture.SynchronizeHost codec t fresh =
         (t, noEffects, some SyncError.noGuestHostSync) ∧
       Texture.SynchronizeHostWithBuffer codec t pCycle =
         (t, noEffects, some SyncError.noGuestHostSync)) ∧
    (∀ g, t.guest = some g → g.dimensions ≠ t.dimensions →
       Texture.SynchronizeHost codec t fresh =
         (t, noEffects, some SyncError.dimensionMismatch) ∧
       Texture.SynchronizeHostWithBuffer codec t pCycle =
         (t, noEffects, some SyncError.dimensionMismatch)) ∧
    (∀ g, t.guest = some g → g.dimensions = t.dimensions →
       g.mappings.length > 1 →
       Texture.SynchronizeHost codec t fresh =
         (t, noEffects, some (SyncError.multipleMappings g.mappings.length)) ∧
       Texture.SynchronizeHostWithBuffer codec t pCycle =
         (t, noEffects, some (SyncError.multipleMappings g.mappings.length))) ∧
    (∀ g, t.guest = some g → g.dimensions = t.dimensions → g.mappings = [] →
       Texture.SynchronizeHost codec t fresh =
         (t, noEffects, some SyncError.mappingOutOfBounds) ∧
       Texture.SynchronizeHostWithBuffer codec t pCycle =
         (t, noEffects, some SyncError.mappingOutOfBounds)) := by
  refine ⟨?_, ?_, ?_, ?_⟩
  · intro h
    unfold Texture.SynchronizeHost Texture.SynchronizeHostWithBuffer
      Texture.SynchronizeHostImpl Texture.hostSyncContractError
    rw [h]
    exact ⟨rfl, rfl⟩
  · intro g hg hd
    unfold Texture.SynchronizeHost Texture.SynchronizeHostWithBuffer
      Texture.SynchronizeHostImpl Texture.hostSyncContractError
    rw [hg]
    simp [hd]
  · intro g hg hd hm
    unfold Texture.SynchronizeHost Texture.SynchronizeHostWithBuffer
      Texture.SynchronizeHostImpl Texture.hostSyncContractError
    rw [hg]
    simp [hd, hm]
  · intro g hg hd hm
    unfold Texture.SynchronizeHost Texture.SynchronizeHostWithBuffer
      Texture.SynchronizeHostImpl Texture.hostSyncContractError
    rw [hg]
    simp [hd, hm]

/-- C4 witness: the dimension-mismatch failure on the concrete
mismatched-dimensions texture. -/
theorem c4_host_sync_preconditions_witness :
    Texture.SynchronizeHost trivialCodec texC3 0 =
      (texC3, noEffects, some SyncError.dimensionMismatch) :=
  ((c4_host_sync_preconditions trivialCodec texC3 0 0).2.1 guestC3 rfl
    (by decide)).1

/-- C6 (amended): with backing present, two successive TransitionLayout(L)
calls leave the cached layout equal to L after either call and submit at
most one GPU command in total: exactly one when the starting layout
differs from L, and zero when the texture is already in layout L. -/
theorem c6_transition_layout_idempotent (t : Texture) (L : ImageLayout) (f1 f2 : Nat)
    (hb : t.GetBacking.isSome = true) :
    (Texture.TransitionLayout t f1 L).1.layout = L ∧
    (Texture.TransitionLayout (Texture.TransitionLayout t f1 L).1 f2 L).1.layout = L ∧
    (Texture.TransitionLayout t f1 L).2.1.submissions.length +
      (Texture.TransitionLayout (Texture.TransitionLayout t f1 L).1 f2
        L).2.1.submissions.length =
      (if t.layout = L then 0 else 1) := by
  obtain ⟨d, f, l, ti, b, g, c, m, la⟩ := t
  simp only [Texture.GetBacking] at hb
  obtain ⟨img, himg⟩ := Option.isSome_iff_exists.mp hb
  by_cases hL : l = L <;>
    cases c <;>
    simp [Texture.TransitionLayout, Texture.GetBacking, himg,
      Texture.WaitOnFence, hL]

/-- C6 witness: transitioning a concrete general-layout texture to
transfer-destination-optimal twice submits one command in total. -/
theorem c6_transition_layout_idempotent_witness :
    (Texture.TransitionLayout texC6 0 ImageLayout.transferDstOptimal).1.layout =
      ImageLayout.transferDstOptimal ∧
    (Texture.TransitionLayout
      (Texture.TransitionLayout texC6 0 ImageLayout.transferDstOptimal).1 1
      ImageLayout.transferDstOptimal).1.layout = ImageLayout.transferDstOptimal ∧
    (Texture.TransitionLayout texC6 0 ImageLayout.transferDstOptimal).2.1.submissions.length +
      (Texture.TransitionLayout
        (Texture.TransitionLayout texC6 0 ImageLayout.transferDstOptimal).1 1
        ImageLayout.transferDstOptimal).2.1.submissions.length = 1 :=
  c6_transition_layout_idempotent texC6 ImageLayout.transferDstOptimal 0 1 rfl

/-- CopyFromStagingBuffer records exactly one buffer-to-image copy. -/
theorem copyFromStagingBuffer_one_copy (t : Texture) (buf : List Nat) :
    ((Texture.CopyFromStagingBuffer t buf).1.filter Cmd.isCopyBufferToImage).length = 1 := by
  unfold Texture.CopyFromStagingBuffer
  by_cases h : t.layout = ImageLayout.transferDstOptimal
  · simp [h, Cmd.isCopyBufferToImage]
  · by_cases hu : t.layout = ImageLayout.undefined <;>
      simp [h, hu, Cmd.isCopyBufferToImage]

/-- C5 (amended): a CopyFrom call with backings present whose source
layout is undefined, or whose source dimensions or format differ from the
destination's, fails before any command is recorded or submitted, and
leaves both textures' layouts and backings unchanged, but both textures'
pending fence cycles have already been waited on and cleared before the
precondition checks run. -/
theorem c5_copyFrom_precondition_failures (t s : Texture) (r : SubresourceRange)
    (fresh : Nat)
    (hbt : t.GetBacking.isSome = true) (hbs : s.GetBacking.isSome = true)
    (hviol : s.layout = ImageLayout.undefined ∨ s.dimensions ≠ t.dimensions ∨
      s.format ≠ t.format) :
    (Texture.CopyFrom t s r fresh).2.2.2.isSome = true ∧
    (Texture.CopyFrom t s r fresh).2.2.1.submissions = [] ∧
    (Texture.CopyFrom t s r fresh).2.2.1.recorded = [] ∧
    (Texture.CopyFrom t s r fresh).1.layout = t.layout ∧
    (Texture.CopyFrom t s r fresh).1.backing = t.backing ∧
    (Texture.CopyFrom t s r fresh).1.cycle = none ∧
    (Texture.CopyFrom t s r fresh).2.1.layout = s.layout ∧
    (Texture.CopyFrom t s r fresh).2.1.backing = s.backing ∧
    (Texture.CopyFrom t s r fresh).2.1.cycle = none := by
  simp only [Texture.GetBacking] at hbt hbs
  obtain ⟨ti, hti⟩ := Option.isSome_iff_exists.mp hbt
  obtain ⟨si, hsi⟩ := Option.isSome_iff_exists.mp hbs
  unfold Texture.CopyFrom
  simp only [Texture.GetBacking]
  rw [hti, hsi]
  rcases hviol with h | h | h
  · simp [waitOnFence_state, h]
  · by_cases h1 : s.layout = ImageLayout.undefined <;>
      simp [waitOnFence_state, h, h1]
  · by_cases h1 : s.layout = ImageLayout.undefined <;>
      by_cases h2 : s.dimensions ≠ t.dimensions <;>
      simp [waitOnFence_state, h, h1, h2]

/-- C5 witness: the failure properties at the concrete mismatched-format
pair (same dimensions, defined source layout, format ids 0 and 1). -/
theorem c5_copyFrom_precondition_failures_witness :
    (Texture.CopyFrom texC6 texC5w rng01 0).2.2.2.isSome = true ∧
    (Texture.CopyFrom texC6 texC5w rng01 0).2.2.1.submissions = [] := by
  have h := c5_copyFrom_precondition_failures texC6 texC5w rng01 0 rfl rfl
    (Or.inr (Or.inr (by decide)))
  exact ⟨h.1, h.2.1⟩

/-- C7: for a SynchronizeHost() call whose preconditions hold (guest
present, dimensions matching, exactly one mapping, backing present): on
the staging path (optimal tiling or non-CPU-mappable backing) it makes
exactly one scheduler submission containing exactly one
copy-buffer-to-image command, attaches the staging buffer and the texture
itself to that submission's cycle, and records that cycle as pending; on
the direct-map path (linear and CPU-mappable) it submits nothing, the
backing bytes already hold the converted guest bytes on return, and no new
cycle is recorded as pending (the cycle reference is left cleared). -/
theorem c7_syncHost_transfer_paths (codec : Codec) (t : Texture) (g : GuestTexture)
    (m : List Nat) (fresh : Nat)
    (hg : t.guest = some g) (hd : g.dimensions = t.dimensions)
    (hm : g.mappings = [m]) (hb : t.GetBacking.isSome = true) :
    ((t.tiling = ImageTiling.optimal ∨ t.backing.isMapped = false) →
       (Texture.SynchronizeHost codec t fresh).2.2 = none ∧
       (Texture.SynchronizeHost codec t fresh).2.1.submissions.length = 1 ∧
       (∀ sub ∈ (Texture.SynchronizeHost codec t fresh).2.1.submissions,
          sub.cycleId = fresh ∧
          (sub.cmds.filter Cmd.isCopyBufferToImage).length = 1 ∧
          ∃ b, sub.attached = [Attached.stagingBuffer b, Attached.textureSelf]) ∧
       (Texture.SynchronizeHost codec t fresh).1.cycle = some fresh) ∧
    (t.tiling = ImageTiling.linear → t.backing.isMapped = true →
       (Texture.SynchronizeHost codec t fresh).2.2 = none ∧
       (Texture.SynchronizeHost codec t fresh).2.1.submissions = [] ∧
       (Texture.SynchronizeHost codec t fresh).2.1.recorded = [] ∧
       (Texture.SynchronizeHost codec t fresh).1.backing =
         t.backing.setMappedData
           (syncHostConvert codec g m (t.backing.mappedData.getD [])
             (t.format.GetSize t.dimensions)) ∧
       (Texture.SynchronizeHost codec t fresh).1.cycle = none) := by
  have hce : t.hostSyncContractError = none := by
    unfold Texture.hostSyncContractError
    rw [hg]
    simp [hd, hm]
  simp only [Texture.GetBacking] at hb
  obtain ⟨img, himg⟩ := Option.isSome_iff_exists.mp hb
  constructor
  · intro hcond
    unfold Texture.SynchronizeHost Texture.SynchronizeHostImpl
    rw [hce, hg]
    simp only [hm, List.head?, Texture.GetBacking, himg, hcond, if_true]
    refine ⟨?_, ?_, ?_, ?_⟩ <;> try trivial
    intro sub hsub
    rw [List.mem_singleton] at hsub
    subst hsub
    exact ⟨rfl, copyFromStagingBuffer_one_copy _ _, _, rfl⟩
  · intro ht hmap
    unfold Texture.SynchronizeHost Texture.SynchronizeHostImpl
    rw [hce, hg]
    have hcond : ¬(t.tiling = ImageTiling.optimal ∨ t.backing.isMapped = false) := by
      simp [ht, hmap]
    cases hc : t.cycle <;>
      simp [hm, Texture.GetBacking, himg, hcond, ht, hmap, hc, waitOnFence_state]

/-- C7 witness: the staging path on a concrete optimally tiled texture and
the direct-map path on a concrete linear CPU-mapped texture. -/
theorem c7_syncHost_transfer_paths_witness :
    (Texture.SynchronizeHost trivialCodec texC7o 5).2.1.submissions.length = 1 ∧
    (Texture.SynchronizeHost trivialCodec texC7o 5).1.cycle = some 5 ∧
    (Texture.SynchronizeHost trivialCodec texC7l 5).2.1.submissions = [] ∧
    (Texture.SynchronizeHost trivialCodec texC7l 5).1.cycle = none := by
  have ha := c7_syncHost_transfer_paths trivialCodec texC7o guestC7 [5] 5
    rfl rfl rfl rfl
  have hl := c7_syncHost_transfer_paths trivialCodec texC7l guestC7l [5] 5
    rfl rfl rfl rfl
  exact ⟨(ha.1 (Or.inl rfl)).2.1, (ha.1 (Or.inl rfl)).2.2.2,
    (hl.2 rfl rfl).2.1, (hl.2 rfl rfl).2.2.2.2⟩

/-- CopyToGuest reads only the format and dimensions of the texture, so a
cleared pending-cycle reference does not change its result. -/
theorem copyToGuest_ignores_cycle (codec : Codec) (t : Texture) (g : GuestTexture)
    (mu hostBuffer : List Nat) :
    Texture.CopyToGuest codec { t with cycle := none } g mu hostBuffer =
      Texture.CopyToGuest codec t g mu hostBuffer := rfl

/-- C8: on the linear CPU-mappable direct-map path,
SynchronizeGuestWithBuffer performs CopyToGuest immediately (the returned
state already reflects it) and additionally attaches a TextureBufferCopy
guard with no staging buffer to the supplied cycle; releasing such a guard
runs CopyToGuest a second time from the backing image's mapped bytes, so
the write-back runs once synchronously and once deferred. -/
theorem c8_guestWithBuffer_double_writeback (codec : Codec) (t : Texture)
    (g : GuestTexture) (m : List Nat) (h : Nat) (d : List Nat) (pCycle : Nat)
    (hg : t.guest = some g) (hl : t.layout ≠ ImageLayout.undefined)
    (hm : g.mappings = [m]) (ht : t.tiling = ImageTiling.linear)
    (hb : t.backing = BackingType.mappedImage h d) :
    (Texture.SynchronizeGuestWithBuffer codec t pCycle).2.2 = none ∧
    (Texture.SynchronizeGuestWithBuffer codec t pCycle).2.1.submissions = [] ∧
    (Texture.SynchronizeGuestWithBuffer codec t pCycle).2.1.recorded = [] ∧
    (Texture.SynchronizeGuestWithBuffer codec t pCycle).2.1.attachedTo =
      [(pCycle, Attached.bufferCopy none)] ∧
    (Texture.SynchronizeGuestWithBuffer codec t pCycle).1.backing =
      BackingType.mappedImage h (Texture.CopyToGuest codec t g m d).1 ∧
    (Texture.SynchronizeGuestWithBuffer codec t pCycle).1.guest =
      some (g.setMapping0 (Texture.CopyToGuest codec t g m d).2) ∧
    (Texture.SynchronizeGuestWithBuffer codec t pCycle).1.cycle = some pCycle ∧
    (∀ u gu mu hu du, u.guest = some gu → gu.mappings.head? = some mu →
       u.backing = BackingType.mappedImage hu du →
       TextureBufferCopy.run codec u ⟨none⟩ =
         some { u with
           backing := BackingType.mappedImage hu (Texture.CopyToGuest codec u gu mu du).1,
           guest := some (gu.setMapping0 (Texture.CopyToGuest codec u gu mu du).2) }) := by
  have hrun : ∀ (u : Texture) gu mu hu du, u.guest = some gu →
      gu.mappings.head? = some mu → u.backing = BackingType.mappedImage hu du →
      TextureBufferCopy.run codec u ⟨none⟩ =
        some { u with
          backing := BackingType.mappedImage hu (Texture.CopyToGuest codec u gu mu du).1,
          guest := some (gu.setMapping0 (Texture.CopyToGuest codec u gu mu du).2) } := by
    intro u gu mu hu du hug humap hub
    unfold TextureBufferCopy.run
    simp [hug, humap, hub, BackingType.mappedData, BackingType.setMappedData]
  have heq : ∃ w, Texture.SynchronizeGuestWithBuffer codec t pCycle =
      ({ t with
         backing := BackingType.mappedImage h (Texture.CopyToGuest codec t g m d).1,
         guest := some (g.setMapping0 (Texture.CopyToGuest codec t g m d).2),
         cycle := some pCycle },
       { submissions := [], recorded := [],
         attachedTo := [(pCycle, Attached.bufferCopy none)],
         fenceWaits := w }, none) := by
    unfold Texture.SynchronizeGuestWithBuffer
    rw [hg]
    by_cases hcyc : t.cycle ≠ some pCycle
    · refine ⟨(Texture.WaitOnFence t).2, ?_⟩
      simp [hl, hm, hcyc, hb, ht, Texture.GetBacking, BackingType.getBacking,
        BackingType.isMapped, BackingType.mappedData, BackingType.setMappedData,
        waitOnFence_state, copyToGuest_ignores_cycle]
      exact ⟨rfl, rfl⟩
    · refine ⟨0, ?_⟩
      simp [hl, hm, hcyc, hb, ht, Texture.GetBacking, BackingType.getBacking,
        BackingType.isMapped, BackingType.mappedData, BackingType.setMappedData]
  obtain ⟨w, heq⟩ := heq
  rw [heq]
  exact ⟨rfl, rfl, rfl, rfl, rfl, rfl, rfl, hrun⟩

/-- C8 witness: the double write-back machinery on a concrete linear
CPU-mapped texture with guest byte 5 and host byte 6 (given the swapped
memcpy of CopyToGuest, both the immediate run and the deferred run write
the guest byte into the host image). -/
theorem c8_guestWithBuffer_double_writeback_witness :
    (Texture.SynchronizeGuestWithBuffer trivialCodec texC8 9).2.1.attachedTo =
      [(9, Attached.bufferCopy none)] ∧
    (Texture.SynchronizeGuestWithBuffer trivialCodec texC8 9).1.backing =
      BackingType.mappedImage 4 [5] ∧
    (Texture.SynchronizeGuestWithBuffer trivialCodec texC8 9).1.cycle = some 9 ∧
    TextureBufferCopy.run trivialCodec texC8 ⟨none⟩ =
      some { texC8 with backing := BackingType.mappedImage 4 [5],
                        guest := some (guestC8.setMapping0 [5]) } := by
  have hc8 := c8_guestWithBuffer_double_writeback trivialCodec texC8 guestC8 [5] 4
    [6] 9 rfl (by decide) rfl rfl rfl
  exact ⟨hc8.2.2.2.1, hc8.2.2.2.2.1, hc8.2.2.2.2.2.2.1,
    hc8.2.2.2.2.2.2.2 texC8 guestC8 [5] 4 [6] rfl rfl rfl⟩

end skyline
